import Mathlib

/-!
Shallow embedding of the invoicer program (src/invoicer.py): the invoice
numbering authority (Invoice.__init__ and Invoice.get_next_invoice_number),
the total computation (calculate_total_price) and the document composition
part of output_pdf. Python strings are modelled as lists of characters;
Python floats are modelled as rationals (the claims under study are about
which expressions are computed, not about rounding); the external
collaborators textwrap.fill and float-to-string conversion are threaded as
function parameters, as the spec treats them as capabilities of an external
rendering collaborator.
-/

namespace Invoicer

/-- Python strings, modelled as lists of characters. -/
abbrev Str := List Char

/-- ASCII decimal digit test, modelling Python str.isdigit restricted to
ASCII (the repository only produces ASCII file names). -/
def pyIsDigitChar (c : Char) : Bool := '0' ≤ c && c ≤ '9'

/-- Python s.isdigit(): nonempty and all characters are digits. -/
def pyIsDigit (s : Str) : Bool := !s.isEmpty && s.all pyIsDigitChar

/-- Python file.split("_")[0]: the substring before the first underscore
(the whole string when no underscore occurs). -/
def splitHead (s : Str) : Str := s.takeWhile (fun c => c ≠ '_')

/-- Python s.startswith(p), as pyStartswith p s. -/
def pyStartswith : Str → Str → Bool
  | [], _ => true
  | _ :: _, [] => false
  | p :: ps, c :: cs => p = c && pyStartswith ps cs

/-- Python s.endswith(p), as pyEndswith p s. -/
def pyEndswith (p s : Str) : Bool := pyStartswith p.reverse s.reverse

/-- Python int(s) on a digit string. -/
def parseNat (s : Str) : Nat := s.foldl (fun a c => 10 * a + (c.toNat - 48)) 0

/-- The decimal digit characters. -/
def digitChar : Nat → Char
  | 0 => '0' | 1 => '1' | 2 => '2' | 3 => '3' | 4 => '4'
  | 5 => '5' | 6 => '6' | 7 => '7' | 8 => '8' | _ => '9'

/-- Decimal digits of a natural number, most significant first; fuel-driven
recursion (the fuel argument strictly decreases). -/
def natToDigitsAux : Nat → Nat → Str
  | 0, _ => []
  | fuel + 1, n =>
    if n < 10 then [digitChar n]
    else natToDigitsAux fuel (n / 10) ++ [digitChar (n % 10)]

/-- Python str(n) for a natural number. -/
def pyStrNat (n : Nat) : Str := natToDigitsAux (n + 1) n

/-- Python str(n) for an integer (a leading minus sign when negative). -/
def pyStrInt (n : Int) : Str :=
  if n < 0 then '-' :: pyStrNat n.natAbs else pyStrNat n.toNat

/-- ASCII lowercasing of one character, modelling Python str.lower
restricted to ASCII. -/
def pyLowerChar (c : Char) : Char :=
  match c with
  | 'A' => 'a' | 'B' => 'b' | 'C' => 'c' | 'D' => 'd' | 'E' => 'e'
  | 'F' => 'f' | 'G' => 'g' | 'H' => 'h' | 'I' => 'i' | 'J' => 'j'
  | 'K' => 'k' | 'L' => 'l' | 'M' => 'm' | 'N' => 'n' | 'O' => 'o'
  | 'P' => 'p' | 'Q' => 'q' | 'R' => 'r' | 'S' => 's' | 'T' => 't'
  | 'U' => 'u' | 'V' => 'v' | 'W' => 'w' | 'X' => 'x' | 'Y' => 'y'
  | 'Z' => 'z' | c => c

/-- Python s.lower(). -/
def pyLower (s : Str) : Str := s.map pyLowerChar

/-- Python s.replace(" ", "_"): the pattern and the replacement both have
one character, so the substring replacement is a character-wise map. -/
def pyReplaceSpaceUnderscore (s : Str) : Str :=
  s.map (fun c => if c = ' ' then '_' else c)

/-- The errors the engine can signal (each is a sys.exit(1) in the source,
and KeyError for the unknown currency). -/
inductive PyError where
  | DuplicateInvoiceNumber
  | UnknownCurrency
  | ConfigurationError
deriving DecidableEq

/-- InvoiceItem record of src/invoicer.py (quantity and unit price are
Python floats, modelled as rationals). -/
structure InvoiceItem where
  description : Str
  quantity : ℚ
  unit_price : ℚ
deriving DecidableEq

/-- Invoice record of src/invoicer.py, after pydantic parsing and before
the numbering steps of Invoice.__init__. -/
structure Invoice where
  customer_name : Str
  customer_address1 : Str
  customer_address2 : Str
  customer_business_number : Str
  invoice_number : Int
  invoice_currency : Str
  invoice_date : Str
  invoice_items : List InvoiceItem
  invoice_total_price : ℚ
deriving DecidableEq

/-- Settings record of src/invoicer.py; the payment_instructions dict is
modelled as an association list. -/
structure Settings where
  output_directory : Str
  invoice_header : List Str
  invoice_footer : List Str
  payment_instructions : List (Str × Str)
deriving DecidableEq

/-- Python dict lookup, as an option (KeyError when absent). -/
def dictGet (d : List (Str × Str)) (k : Str) : Option Str :=
  (d.find? (fun p => p.1 = k)).map (fun p => p.2)

/-- The filename filter of Invoice.get_next_invoice_number: ends in .pdf
and the leading token before the first underscore is all digits. -/
def qualifies (file : Str) : Bool :=
  pyEndswith ('.' :: 'p' :: 'd' :: 'f' :: []) file && pyIsDigit (splitHead file)

/-- Invoice.get_next_invoice_number of src/invoicer.py: fold over the
directory listing, starting at 1, bumping to file number + 1 whenever a
qualifying file number is at least the accumulator. -/
def get_next_invoice_number (listing : List Str) : Nat :=
  listing.foldl
    (fun invoice_number file =>
      if qualifies file then
        let file_invoice_number := parseNat (splitHead file)
        if invoice_number ≤ file_invoice_number then file_invoice_number + 1
        else invoice_number
      else invoice_number)
    1

/-- The date-default step of Invoice.__init__: an empty (falsy) date is
replaced by the current date; today stands for datetime.now formatted. -/
def date_defaulted (today : Str) (inv : Invoice) : Invoice :=
  if inv.invoice_date.isEmpty then { inv with invoice_date := today } else inv

/-- The numbering steps of Invoice.__init__ of src/invoicer.py: the date
default, the duplicate check for a truthy (nonzero) requested number, and
the next-number assignment for a falsy (zero) one. The argument today
stands for datetime.now formatted; listing is os.listdir of the output
directory. -/
def invoice_init (today : Str) (listing : List Str) (inv : Invoice) :
    Except PyError Invoice :=
  let inv := date_defaulted today inv
  if inv.invoice_number ≠ 0 then
    if listing.any (fun file => pyStartswith (pyStrInt inv.invoice_number) file)
    then .error .DuplicateInvoiceNumber
    else .ok inv
  else .ok { inv with invoice_number := (get_next_invoice_number listing : Nat) }

/-- The numbering resolution extracted from Invoice.__init__ (the spec's
resolve contract): requested number 0 stands for absent. -/
def resolve (requested : Int) (listing : List Str) : Except PyError Int :=
  if requested ≠ 0 then
    if listing.any (fun file => pyStartswith (pyStrInt requested) file)
    then .error .DuplicateInvoiceNumber
    else .ok requested
  else .ok (get_next_invoice_number listing)

/-- The maximum of the leading-token integers over the qualifying entries,
defaulting to 0; this is the value the claims describe as max_existing. -/
def max_existing (listing : List Str) : Nat :=
  listing.foldl
    (fun m file => if qualifies file then max m (parseNat (splitHead file)) else m)
    0

/-- calculate_total_price of src/invoicer.py: running sum of
unit_price * quantity over the invoice items. -/
def calculate_total_price (invoice : Invoice) : ℚ :=
  invoice.invoice_items.foldl
    (fun total_price item => total_price + item.unit_price * item.quantity) 0

/-- One cell of a rendered table: either a string or a raw Python float
passed through unconverted (as the source hands quantities and prices to
the Table constructor). -/
inductive Cell where
  | txt : Str → Cell
  | num : ℚ → Cell
  | intval : Int → Cell
deriving DecidableEq

/-- One layout element appended to the elements list of output_pdf: a
table, the side-by-side header/customer combined table, or a spacer. -/
inductive Block where
  | table : List (List Cell) → Block
  | combined : List (List Cell) → List (List Cell) → Block
  | spacer : Nat → Nat → Block
deriving DecidableEq

/-- header_data of output_pdf: one single-cell row per configured header
line. -/
def header_data (settings : Settings) : List (List Cell) :=
  settings.invoice_header.map (fun header_text => [Cell.txt header_text])

/-- customer_data of output_pdf: name, address lines, business number,
then three empty padding rows. -/
def customer_data (invoice : Invoice) : List (List Cell) :=
  [[Cell.txt invoice.customer_name],
   [Cell.txt invoice.customer_address1],
   [Cell.txt invoice.customer_address2],
   [Cell.txt invoice.customer_business_number],
   [], [], []]

/-- invoice_data of output_pdf: the two-row date/number key-value table. -/
def invoice_data (invoice : Invoice) : List (List Cell) :=
  [[Cell.txt ("Invoice Date:".data), Cell.txt invoice.invoice_date],
   [Cell.txt ("Invoice Number:".data), Cell.intval invoice.invoice_number]]

/-- The header row of the items table. -/
def items_header_row : List Cell :=
  [Cell.txt ("Description".data), Cell.txt ("Quantity".data),
   Cell.txt ("Unit Price".data), Cell.txt ("Total Price".data)]

/-- One item row of the items table: fill stands for textwrap.fill,
applied at width 40 as in the source. -/
def item_row (fill : Nat → Str → Str) (item : InvoiceItem) : List Cell :=
  [Cell.txt (fill 40 item.description), Cell.num item.quantity,
   Cell.num item.unit_price, Cell.num (item.unit_price * item.quantity)]

/-- The label cell of the final total row: Tot (CURRENCY): . -/
def tot_label (currency : Str) : Str :=
  ("Tot (".data) ++ currency ++ ("):".data)

/-- The final total row of the items table: fStr stands for the Python
float-to-string conversion used by the f-string. -/
def total_row (fStr : ℚ → Str) (invoice : Invoice) : List Cell :=
  [Cell.txt (tot_label invoice.invoice_currency), Cell.txt [], Cell.txt [],
   Cell.txt (fStr (calculate_total_price invoice) ++ ' ' :: invoice.invoice_currency)]

/-- items_data of output_pdf: the header row, then an append per item (as
the source loop does), then the total row. -/
def items_data (fStr : ℚ → Str) (fill : Nat → Str → Str) (invoice : Invoice) :
    List (List Cell) :=
  let rows := invoice.invoice_items.foldl
    (fun acc item => acc ++ [item_row fill item]) [items_header_row]
  rows ++ [total_row fStr invoice]

/-- footer_data of output_pdf: one single-cell row per configured footer
line. -/
def footer_data (settings : Settings) : List (List Cell) :=
  settings.invoice_footer.map (fun footer_text => [Cell.txt footer_text])

/-- The elements appended to the list before the payment-instructions
lookup runs in output_pdf. -/
def pre_payment_blocks (fStr : ℚ → Str) (fill : Nat → Str → Str)
    (invoice : Invoice) (settings : Settings) : List Block :=
  [Block.combined (header_data settings) (customer_data invoice),
   Block.spacer 1 24,
   Block.table (invoice_data invoice),
   Block.spacer 1 24,
   Block.table (items_data fStr fill invoice),
   Block.spacer 1 12]

/-- The document composition of output_pdf: the element construction of
lines 178-299 of src/invoicer.py. The payment-instructions dict lookup
raises KeyError (UnknownCurrency) when the lowercased currency is absent;
in that case no element list is produced and doc.build never runs. -/
def compose (fStr : ℚ → Str) (fill : Nat → Str → Str)
    (invoice : Invoice) (settings : Settings) : Except PyError (List Block) :=
  let elements := pre_payment_blocks fStr fill invoice settings
  match dictGet settings.payment_instructions (pyLower invoice.invoice_currency) with
  | none => .error .UnknownCurrency
  | some payment_instructions =>
    .ok (elements ++
      [Block.table [[Cell.txt payment_instructions]],
       Block.spacer 1 12,
       Block.table (footer_data settings)])

/-- The normalized customer name of output_pdf:
customer_name.replace(" ", "_").lower(). -/
def normalized_customer_name (invoice : Invoice) : Str :=
  pyLower (pyReplaceSpaceUnderscore invoice.customer_name)

/-- pdf_file_name of output_pdf: output_directory/number_name.pdf . -/
def pdf_file_name (invoice : Invoice) (settings : Settings) : Str :=
  settings.output_directory ++ '/' :: pyStrInt invoice.invoice_number ++
    '_' :: normalized_customer_name invoice ++ ('.' :: 'p' :: 'd' :: 'f' :: [])

/-- output_pdf of src/invoicer.py: the directory-existence check, the file
name, and the composed elements (doc.build writes the artifact at the end,
so an error means no artifact is written). -/
def output_pdf (fStr : ℚ → Str) (fill : Nat → Str → Str)
    (invoice : Invoice) (settings : Settings) (dirExists : Bool) :
    Except PyError (Str × List Block) :=
  if !dirExists then .error .ConfigurationError
  else (compose fStr fill invoice settings).map
    (fun blocks => (pdf_file_name invoice settings, blocks))

/-- A trivial float-to-string collaborator used to instantiate witnesses. -/
def idFStr : ℚ → Str := fun _ => []

/-- A trivial word-wrap collaborator used to instantiate witnesses. -/
def idFill : Nat → Str → Str := fun _ s => s

/-- A concrete settings record used to instantiate witnesses. -/
def demoSettings : Settings :=
  { output_directory := "out".data
    invoice_header := [("Me Inc".data)]
    invoice_footer := [("Thanks".data)]
    payment_instructions := [(("eur".data), ("IT00 0000 0000".data))] }

/-- The same settings with an empty payment-instructions mapping. -/
def demoSettingsNoEur : Settings :=
  { demoSettings with payment_instructions := [] }

/-- A concrete invoice record used to instantiate witnesses. -/
def demoInvoice : Invoice :=
  { customer_name := "Acme Corp".data
    customer_address1 := "Street 1".data
    customer_address2 := "City".data
    customer_business_number := "B123".data
    invoice_number := 1
    invoice_currency := "EUR".data
    invoice_date := "01/01/2024".data
    invoice_items := [{ description := "Consulting".data, quantity := 2, unit_price := 100 }]
    invoice_total_price := 0 }

/-- A concrete invoice carrying a negative requested number. -/
def negInvoice : Invoice :=
  { demoInvoice with invoice_number := -1 }

/-- A concrete invoice carrying requested number 0 (assign next). -/
def zeroInvoice : Invoice :=
  { demoInvoice with invoice_number := 0 }

/- ------------------------------------------------------------------ -/
/- Helper lemmas                                                       -/
/- ------------------------------------------------------------------ -/

/-- Appending one mapped element at a time is the same as appending the
mapped list. -/
lemma foldl_append_map {α β : Type} (g : α → β) :
    ∀ (l : List α) (init : List β),
      l.foldl (fun acc x => acc ++ [g x]) init = init ++ l.map g := by
  intro l
  induction l with
  | nil => intro init; simp
  | cons x xs ih => intro init; simp [ih]

/-- The bump fold of get_next_invoice_number, started one above acc, is
one above the max fold started at acc. -/
lemma foldl_bump_eq_max (l : List Str) :
    ∀ acc : Nat,
      l.foldl
        (fun invoice_number file =>
          if qualifies file then
            let file_invoice_number := parseNat (splitHead file)
            if invoice_number ≤ file_invoice_number then file_invoice_number + 1
            else invoice_number
          else invoice_number)
        (acc + 1)
      = l.foldl
          (fun m file => if qualifies file then max m (parseNat (splitHead file)) else m)
          acc + 1 := by
  induction l with
  | nil => intro acc; rfl
  | cons f fs ih =>
    intro acc
    simp only [List.foldl_cons]
    have h : (if qualifies f then
          let file_invoice_number := parseNat (splitHead f)
          if acc + 1 ≤ file_invoice_number then file_invoice_number + 1 else acc + 1
        else acc + 1)
        = (if qualifies f then max acc (parseNat (splitHead f)) else acc) + 1 := by
      by_cases hq : qualifies f
      · simp only [hq, if_true]
        split <;> omega
      · simp [hq]
    rw [h, ih]

/-- get_next_invoice_number returns one above the maximum leading token of
the qualifying entries (0 when none). -/
lemma get_next_invoice_number_eq (listing : List Str) :
    get_next_invoice_number listing = max_existing listing + 1 := by
  have h := foldl_bump_eq_max listing 0
  simpa [get_next_invoice_number, max_existing] using h

/-- resolve on a nonzero requested number is the duplicate-scan branch. -/
lemma resolve_nonzero_eq (n : Int) (listing : List Str) (hn : n ≠ 0) :
    resolve n listing =
      if listing.any (fun file => pyStartswith (pyStrInt n) file)
      then .error .DuplicateInvoiceNumber else .ok n := by
  simp [resolve, hn]

/-- The date default step of invoice_init does not touch the number. -/
lemma date_defaulted_number (today : Str) (inv : Invoice) :
    (date_defaulted today inv).invoice_number = inv.invoice_number := by
  unfold date_defaulted
  split <;> rfl

/-- invoice_init, spelled with the branch conditions on the original
record (the date default does not change the number). -/
lemma invoice_init_eq (today : Str) (listing : List Str) (inv : Invoice) :
    invoice_init today listing inv =
      if inv.invoice_number ≠ 0 then
        if listing.any (fun file => pyStartswith (pyStrInt inv.invoice_number) file)
        then .error .DuplicateInvoiceNumber
        else .ok (date_defaulted today inv)
      else .ok { date_defaulted today inv with
                   invoice_number := (get_next_invoice_number listing : Nat) } := by
  simp only [invoice_init, date_defaulted_number]

/-- calculate_total_price is the sum of quantity times unit price over the
items. -/
lemma calculate_total_price_eq_sum (inv : Invoice) :
    calculate_total_price inv =
      (inv.invoice_items.map (fun item => item.quantity * item.unit_price)).sum := by
  have key : ∀ (l : List InvoiceItem) (a : ℚ),
      l.foldl (fun total_price item => total_price + item.unit_price * item.quantity) a =
        a + (l.map (fun item => item.quantity * item.unit_price)).sum := by
    intro l
    induction l with
    | nil => intro a; simp
    | cons x xs ih => intro a; simp [ih]; ring
  simpa [calculate_total_price] using key inv.invoice_items 0

/-- ASCII lowercasing never produces a space from a non-space. -/
lemma pyLowerChar_ne_space (c : Char) (h : c ≠ ' ') : pyLowerChar c ≠ ' ' := by
  unfold pyLowerChar
  split <;> first | decide | exact h

/-- Replacing spaces by underscores commutes with lowercasing. -/
lemma lower_replace_comm (s : Str) :
    pyLower (pyReplaceSpaceUnderscore s) = pyReplaceSpaceUnderscore (pyLower s) := by
  unfold pyLower pyReplaceSpaceUnderscore
  rw [List.map_map, List.map_map]
  congr 1
  funext c
  by_cases h : c = ' '
  · subst h; decide
  · simp only [Function.comp_apply, if_neg h, if_neg (pyLowerChar_ne_space c h)]

/- ------------------------------------------------------------------ -/
/- Claim theorems                                                      -/
/- ------------------------------------------------------------------ -/

/-- Claim C1: when no invoice number is requested (number 0), resolution
returns max_existing + 1, where max_existing is the maximum of the leading
integer tokens of the .pdf entries with an all-digit leading token,
defaulting to 0; an empty directory yields 1 and leading numbers 3, 1, 7
yield 8. -/
theorem C1_resolve_absent_is_max_plus_one :
    (∀ listing : List Str,
        resolve 0 listing = .ok ((max_existing listing : Int) + 1))
    ∧ resolve 0 [] = .ok 1
    ∧ resolve 0 [("3_a.pdf".data), ("1_b.pdf".data), ("7_c.pdf".data)] = .ok 8 := by
  refine ⟨?_, by rfl, by rfl⟩
  intro listing
  simp [resolve, get_next_invoice_number_eq listing]

/-- Claim C2: for a requested nonzero number n, resolution fails with
DuplicateInvoiceNumber exactly when some filename of the ledger starts
with the decimal representation of n as a string prefix; in particular a
requested 1 is rejected when a file named 10_acme.pdf exists. -/
theorem C2_duplicate_iff_string_prefix :
    (∀ (n : Int) (listing : List Str), n ≠ 0 →
      (resolve n listing = .error .DuplicateInvoiceNumber ↔
        ∃ file ∈ listing, pyStartswith (pyStrInt n) file = true))
    ∧ resolve 1 [("10_acme.pdf".data)] = .error .DuplicateInvoiceNumber := by
  refine ⟨?_, by rfl⟩
  intro n listing hn
  rw [resolve_nonzero_eq n listing hn]
  by_cases h : (listing.any fun file => pyStartswith (pyStrInt n) file) = true
  · simp [h, List.any_eq_true.mp h]
  · rw [Bool.not_eq_true] at h
    simp only [h, Bool.false_eq_true, if_false]
    constructor
    · intro hok; exact absurd hok (by simp)
    · intro hex
      exact absurd (List.any_eq_true.mpr hex) (by simp [h])

/-- Claim C2 witness: instantiating the duplicate-characterisation at the
requested number 1 over a ledger holding 10_acme.pdf. -/
theorem C2_duplicate_iff_string_prefix_witness :
    resolve 1 [("10_acme.pdf".data)] = .error .DuplicateInvoiceNumber ↔
      ∃ file ∈ [("10_acme.pdf".data)], pyStartswith (pyStrInt 1) file = true :=
  C2_duplicate_iff_string_prefix.1 1 [("10_acme.pdf".data)] (by decide)

/-- Claim C5: a requested nonzero number that collides with no filename is
kept unchanged on the constructed record. -/
theorem C5_requested_number_kept :
    ∀ (today : Str) (listing : List Str) (inv : Invoice),
      inv.invoice_number ≠ 0 →
      (∀ file ∈ listing, pyStartswith (pyStrInt inv.invoice_number) file = false) →
      ∃ inv', invoice_init today listing inv = .ok inv' ∧
        inv'.invoice_number = inv.invoice_number ∧
        resolve inv.invoice_number listing = .ok inv.invoice_number := by
  intro today listing inv hn hfree
  have hany : (listing.any fun file => pyStartswith (pyStrInt inv.invoice_number) file)
      = false := by
    rw [List.any_eq_false]
    intro f hf
    simp [hfree f hf]
  refine ⟨date_defaulted today inv, ?_, date_defaulted_number today inv, ?_⟩
  · rw [invoice_init_eq]
    simp [hn, hany]
  · rw [resolve_nonzero_eq _ _ hn, hany]
    simp

/-- Claim C5 witness: a concrete invoice requesting number 1 over a ledger
holding only 3_b.pdf keeps number 1. -/
theorem C5_requested_number_kept_witness :
    ∃ inv', invoice_init ("02/01/2024".data) [("3_b.pdf".data)] demoInvoice = .ok inv' ∧
      inv'.invoice_number = demoInvoice.invoice_number ∧
      resolve demoInvoice.invoice_number [("3_b.pdf".data)] =
        .ok demoInvoice.invoice_number :=
  C5_requested_number_kept ("02/01/2024".data) [("3_b.pdf".data)] demoInvoice
    (by decide) (by decide)

/-- Claim C9 counterexample: a record requesting the negative number -1
survives construction over an empty ledger with invoice_number -1, which
is not at least 1 — refuting the claim that every surviving record has
invoice_number greater than or equal to 1. -/
theorem C9_counterexample_negative_number :
    invoice_init ("02/01/2024".data) [] negInvoice = .ok negInvoice ∧
    negInvoice.invoice_number = -1 ∧ ¬(1 ≤ negInvoice.invoice_number) := by
  exact ⟨by rfl, by rfl, by decide⟩

/-- Claim C9 (amended): every record surviving construction has a nonzero
invoice_number, and when the supplied number was 0 (absent) the assigned
next-available number is at least 1, so the pending-numbering state is
never observable; a supplied nonzero number, including a negative one, is
kept as-is. -/
theorem C9_no_pending_number_after_init :
    ∀ (today : Str) (listing : List Str) (inv inv' : Invoice),
      invoice_init today listing inv = .ok inv' →
      inv'.invoice_number ≠ 0 ∧
      (inv.invoice_number = 0 → 1 ≤ inv'.invoice_number) := by
  intro today listing inv inv' hok
  rw [invoice_init_eq] at hok
  by_cases hn : inv.invoice_number = 0
  · simp only [hn, ne_eq, not_true_eq_false, if_false, Except.ok.injEq] at hok
    have hnum : inv'.invoice_number = (get_next_invoice_number listing : Int) := by
      rw [← hok]
    have hge : 1 ≤ get_next_invoice_number listing := by
      rw [get_next_invoice_number_eq]; omega
    constructor
    · rw [hnum]; omega
    · intro _; rw [hnum]; exact_mod_cast hge
  · simp only [hn, ne_eq, not_false_iff, if_true] at hok
    by_cases hany : (listing.any fun file =>
        pyStartswith (pyStrInt inv.invoice_number) file) = true
    · rw [hany] at hok
      simp at hok
    · rw [Bool.not_eq_true] at hany
      rw [hany] at hok
      simp only [Bool.false_eq_true, if_false, Except.ok.injEq] at hok
      have hnum : inv'.invoice_number = inv.invoice_number := by
        rw [← hok, date_defaulted_number]
      exact ⟨by rw [hnum]; exact hn, fun h0 => absurd h0 hn⟩

/-- Claim C9 witness: constructing from a record with number 0 over an
empty ledger yields a record with a nonzero number that is at least 1. -/
theorem C9_no_pending_number_after_init_witness :
    ({ zeroInvoice with invoice_number := (1 : Int) } : Invoice).invoice_number ≠ 0 ∧
    (zeroInvoice.invoice_number = 0 →
      1 ≤ ({ zeroInvoice with invoice_number := (1 : Int) } : Invoice).invoice_number) :=
  C9_no_pending_number_after_init ("02/01/2024".data) [] zeroInvoice
    { zeroInvoice with invoice_number := (1 : Int) } (by rfl)

/-- Claim C10: the duplicate check and the next-number scan use different
filters. A requested nonzero number is rejected whenever some entry of
the listing, of any extension, starts with its decimal representation,
while the next-number computation only counts .pdf entries with an
all-digit leading token; hence the entry 5notes.txt makes the requested
number 5 a duplicate even though resolving an absent number over the same
listing returns 1, which is at most 5. -/
theorem C10_duplicate_and_scan_filters_differ :
    (∀ (n : Int) (listing : List Str), n ≠ 0 →
      (∃ file ∈ listing, pyStartswith (pyStrInt n) file = true) →
      resolve n listing = .error .DuplicateInvoiceNumber)
    ∧ (∀ listing : List Str,
        resolve 0 listing = .ok ((max_existing listing : Int) + 1))
    ∧ (qualifies ("5notes.txt".data) = false
       ∧ pyStartswith (pyStrInt 5) ("5notes.txt".data) = true
       ∧ resolve 5 [("5notes.txt".data)] = .error .DuplicateInvoiceNumber
       ∧ resolve 0 [("5notes.txt".data)] = .ok 1
       ∧ (1 : Int) ≤ 5) := by
  refine ⟨?_, ?_, by decide, by decide, by rfl, by rfl, by decide⟩
  · intro n listing hn hex
    rw [resolve_nonzero_eq n listing hn, List.any_eq_true.mpr hex]
    simp
  · intro listing
    simp [resolve, get_next_invoice_number_eq listing]

/-- Claim C10 witness: the rejection branch instantiated at the requested
number 5 over the single entry 5notes.txt. -/
theorem C10_duplicate_and_scan_filters_differ_witness :
    resolve 5 [("5notes.txt".data)] = .error .DuplicateInvoiceNumber :=
  C10_duplicate_and_scan_filters_differ.1 5 [("5notes.txt".data)] (by decide)
    ⟨("5notes.txt".data), by simp, by decide⟩

/-- Claim C3: the value printed in the final total row of the line-items
block is the float conversion of the sum of quantity times unit price over
the items, recomputed from the items; the stored invoice_total_price field
never influences the composed document. -/
theorem C3_total_recomputed_from_items :
    ∀ (fStr : ℚ → Str) (fill : Nat → Str → Str) (inv : Invoice) (s : Settings)
      (stale : ℚ),
      (items_data fStr fill inv).getLast? =
        some [Cell.txt (tot_label inv.invoice_currency), Cell.txt [], Cell.txt [],
          Cell.txt (fStr ((inv.invoice_items.map
              (fun item => item.quantity * item.unit_price)).sum)
            ++ ' ' :: inv.invoice_currency)] ∧
      compose fStr fill { inv with invoice_total_price := stale } s =
        compose fStr fill inv s := by
  intro fStr fill inv s stale
  constructor
  · rw [items_data]
    rw [List.getLast?_concat]
    rw [total_row, calculate_total_price_eq_sum]
  · cases inv
    rfl

/-- Claim C4: composition fails with UnknownCurrency exactly on a failed
lookup of the lowercased currency in payment_instructions, producing no
blocks and writing no artifact; on a successful lookup the payment block
holds the mapped instruction string. -/
theorem C4_unknown_currency_lookup :
    ∀ (fStr : ℚ → Str) (fill : Nat → Str → Str) (inv : Invoice) (s : Settings),
      (dictGet s.payment_instructions (pyLower inv.invoice_currency) = none →
        compose fStr fill inv s = .error .UnknownCurrency ∧
        output_pdf fStr fill inv s true = .error .UnknownCurrency) ∧
      (∀ instr,
        dictGet s.payment_instructions (pyLower inv.invoice_currency) = some instr →
        compose fStr fill inv s = .ok (pre_payment_blocks fStr fill inv s ++
          [Block.table [[Cell.txt instr]], Block.spacer 1 12,
           Block.table (footer_data s)])) := by
  intro fStr fill inv s
  refine ⟨fun h => ⟨?_, ?_⟩, fun instr h => ?_⟩
  · rw [compose, h]
  · rw [output_pdf]
    simp only [Bool.not_true, Bool.false_eq_true, if_false]
    rw [compose, h]
    rfl
  · rw [compose, h]

/-- Claim C4 witness: composing with no payment instructions fails with
UnknownCurrency while the same invoice over instructions keyed by eur
yields the payment block holding the mapped string. -/
theorem C4_unknown_currency_lookup_witness :
    (compose idFStr idFill demoInvoice demoSettingsNoEur = .error .UnknownCurrency ∧
     output_pdf idFStr idFill demoInvoice demoSettingsNoEur true =
       .error .UnknownCurrency) ∧
    compose idFStr idFill demoInvoice demoSettings =
      .ok (pre_payment_blocks idFStr idFill demoInvoice demoSettings ++
        [Block.table [[Cell.txt ("IT00 0000 0000".data)]], Block.spacer 1 12,
         Block.table (footer_data demoSettings)]) :=
  ⟨(C4_unknown_currency_lookup idFStr idFill demoInvoice demoSettingsNoEur).1 (by rfl),
   (C4_unknown_currency_lookup idFStr idFill demoInvoice demoSettings).2
     ("IT00 0000 0000".data) (by rfl)⟩

/-- Claim C6: the artifact name is the output directory, a slash, the
resolved number, an underscore, and the customer name lowercased with
every space replaced by an underscore, then the .pdf extension; the
number 1 with customer Acme Corp yields the base name 1_acme_corp. -/
theorem C6_artifact_base_name :
    (∀ (inv : Invoice) (s : Settings),
      pdf_file_name inv s =
        s.output_directory ++ '/' :: pyStrInt inv.invoice_number ++
          '_' :: pyReplaceSpaceUnderscore (pyLower inv.customer_name) ++
          ('.' :: 'p' :: 'd' :: 'f' :: []))
    ∧ pyStrInt 1 ++ '_' :: normalized_customer_name demoInvoice =
        ("1_acme_corp".data) := by
  refine ⟨?_, by rfl⟩
  intro inv s
  rw [pdf_file_name, normalized_customer_name, lower_replace_comm]

/-- Claim C7: the line-items block is one header row Description,
Quantity, Unit Price, Total Price; then one row per item in order, the
description wrapped at width 40 and the quantity, unit price and line
total quantity times unit price as the other cells; then one final row
with the Tot (CURRENCY): label and the summed total with the currency in
the last cell. -/
theorem C7_items_block_structure :
    ∀ (fStr : ℚ → Str) (fill : Nat → Str → Str) (inv : Invoice),
      items_data fStr fill inv =
        [Cell.txt ("Description".data), Cell.txt ("Quantity".data),
         Cell.txt ("Unit Price".data), Cell.txt ("Total Price".data)] ::
        (inv.invoice_items.map (fun item =>
          [Cell.txt (fill 40 item.description), Cell.num item.quantity,
           Cell.num item.unit_price,
           Cell.num (item.quantity * item.unit_price)]) ++
         [[Cell.txt (tot_label inv.invoice_currency), Cell.txt [], Cell.txt [],
           Cell.txt (fStr ((inv.invoice_items.map
               (fun item => item.quantity * item.unit_price)).sum)
             ++ ' ' :: inv.invoice_currency)]]) := by
  intro fStr fill inv
  have hmap : inv.invoice_items.map (item_row fill) =
      inv.invoice_items.map (fun item =>
        [Cell.txt (fill 40 item.description), Cell.num item.quantity,
         Cell.num item.unit_price,
         Cell.num (item.quantity * item.unit_price)]) := by
    apply List.map_congr_left
    intro item _
    rw [item_row, mul_comm item.unit_price item.quantity]
  rw [items_data, foldl_append_map (item_row fill) inv.invoice_items [items_header_row],
    total_row, calculate_total_price_eq_sum, items_header_row, hmap,
    List.append_assoc, List.singleton_append]

/-- Claim C8: composition is deterministic; two calls on the same invoice
and settings, with the same collaborators, produce the same block
sequence. -/
theorem C8_compose_deterministic :
    ∀ (fStr : ℚ → Str) (fill : Nat → Str → Str) (inv : Invoice) (s : Settings)
      (b1 b2 : Except PyError (List Block)),
      b1 = compose fStr fill inv s → b2 = compose fStr fill inv s → b1 = b2 := by
  intro _ _ _ _ _ _ h1 h2
  rw [h1, h2]

/-- Claim C8 witness: two calls over the concrete demo invoice and
settings agree. -/
theorem C8_compose_deterministic_witness :
    compose idFStr idFill demoInvoice demoSettings =
      compose idFStr idFill demoInvoice demoSettings :=
  C8_compose_deterministic idFStr idFill demoInvoice demoSettings
    (compose idFStr idFill demoInvoice demoSettings)
    (compose idFStr idFill demoInvoice demoSettings) (by rfl) (by rfl)

end Invoicer
